import Mathlib

/-!
Shallow embedding of the HLS-VI historical orchestration core
(granule identifier codec, progress ledger, attempt log store,
outcome classifier, job monitor, queue feeder) together with proofs
of the spec-level claims about it.

Python strings are embedded as `List Char`; Python `int` as `Int`
(unbounded) or `Nat` where the source only ever holds non-negative
values; fallible code returns `Option`/`Except`.
-/

namespace HLSVI

/-- Embedded Python string. -/
abbrev Str := List Char

/-- Embedding of Python `str.split(sep)` for a one-character separator:
splits on every occurrence of the separator, keeping empty pieces
(`"a..b".split(".") == ["a","","b"]`, `"".split(".") == [""]`). -/
def pySplit (sep : Char) : Str → List Str
  | [] => [[]]
  | c :: cs =>
    match pySplit sep cs with
    | [] => [[]]
    | r :: rs => if c = sep then [] :: r :: rs else (c :: r) :: rs

/-- Embedding of Python `sep.join(parts)` for a one-character separator. -/
def pyJoin (sep : Char) : List Str → Str
  | [] => []
  | [x] => x
  | x :: y :: xs => x ++ sep :: pyJoin sep (y :: xs)

/-- Value of an ASCII decimal digit character, `none` on anything else
(the regex class `[0-9]`). -/
def charToDigit? (c : Char) : Option Nat :=
  if '0' ≤ c ∧ c ≤ '9' then some (c.toNat - 48) else none

/-- ASCII character of a decimal digit (0-9); a placeholder otherwise. -/
def digitToChar (k : Nat) : Char :=
  if k = 0 then '0' else if k = 1 then '1' else if k = 2 then '2'
  else if k = 3 then '3' else if k = 4 then '4' else if k = 5 then '5'
  else if k = 6 then '6' else if k = 7 then '7' else if k = 8 then '8'
  else if k = 9 then '9' else '*'

/-- Little-endian base-10 digits, with explicit fuel so that the
definition is structural (and so reduces inside the kernel).  Any
fuel of at least `n` gives the digits of `n`. -/
def natDigitsRev : Nat → Nat → List Nat
  | _, 0 => []
  | 0, _ + 1 => []
  | fuel + 1, n + 1 => (n + 1) % 10 :: natDigitsRev fuel ((n + 1) / 10)

/-- Embedding of Python `str(n)` for a non-negative integer: its base-10
representation with no leading zeros. -/
def natToStr (n : Nat) : Str :=
  if n = 0 then ['0'] else ((natDigitsRev n n).reverse.map digitToChar)

/-- Value of a non-empty all-digit string (used to embed Python `int(s)`
on the attempt counters this system writes, which are non-negative). -/
def strToNat? (l : Str) : Option Nat :=
  if l = [] then none
  else l.foldl (fun acc c => acc.bind fun a => (charToDigit? c).map fun d => a * 10 + d)
    (some 0)

/-- Embedding of a Python `dict` used in insertion order: an association
list where inserting an existing key overwrites the value in place and
inserting a new key appends it. -/
def dictInsert {α : Type} (m : List (Str × α)) (k : Str) (v : α) : List (Str × α) :=
  if m.any (fun p => p.1 = k) then
    m.map (fun p => if p.1 = k then (k, v) else p)
  else m ++ [(k, v)]

/-- Python `dict[k]` lookup (first matching key; keys are unique in the
dicts this system builds). -/
def dictGet? {α : Type} (m : List (Str × α)) (k : Str) : Option α :=
  (m.find? (fun p => p.1 = k)).map Prod.snd

/-! ## Datetime codec (`HLS_GRANULE_ID_STRFTIME = "%Y%jT%H%M%S"`)

`common/models.py` stores `begin_datetime` as a `datetime.datetime`
parsed with `strptime` and printed with `strftime` using the fixed
format `%Y%jT%H%M%S`.  Only year, day-of-year (`%j`, what `strftime`
recomputes as `tm_yday`) and time of day are ever read back, so the
datetime is embedded as those five fields. -/

structure PyDatetime where
  year : Nat
  doy : Nat
  hour : Nat
  minute : Nat
  second : Nat
deriving Repr, DecidableEq

/-- Gregorian leap-year rule (as used by Python `datetime`). -/
def isLeap (y : Nat) : Bool :=
  (y % 4 == 0 && y % 100 != 0) || y % 400 == 0

/-- Number of days in a year. -/
def daysInYear (y : Nat) : Nat :=
  if isLeap y then 366 else 365

/-- `%02d`-style zero padding (faithful for values below 100). -/
def pad2 (n : Nat) : Str :=
  [digitToChar (n / 10 % 10), digitToChar (n % 10)]

/-- `%03d`-style zero padding (faithful for values below 1000). -/
def pad3 (n : Nat) : Str :=
  [digitToChar (n / 100 % 10), digitToChar (n / 10 % 10), digitToChar (n % 10)]

/-- `%04d`-style zero padding (faithful for values below 10000;
`strptime`'s `%Y` only produces years up to 9999). -/
def pad4 (n : Nat) : Str :=
  [digitToChar (n / 1000 % 10), digitToChar (n / 100 % 10),
   digitToChar (n / 10 % 10), digitToChar (n % 10)]

/-- Embedding of `strftime("%Y%jT%H%M%S")` as it behaves on the
deployment platform (CPython delegating to glibc): `%j`, `%H`, `%M`
and `%S` are zero-padded to their fixed widths, but `%Y` prints the
year unpadded, so years below 1000 yield fewer than four digits
(e.g. year 999 prints as `999`, not `0999`). -/
def formatTs (d : PyDatetime) : Str :=
  natToStr d.year ++ pad3 d.doy ++ 'T' :: (pad2 d.hour ++ pad2 d.minute ++ pad2 d.second)

/-- The fixed-width `%Y%jT%H%M%S` timestamp layout of the granule
identifier format (four-digit year, three-digit day-of-year,
two-digit time fields): the shape of the timestamp field of every
valid identifier string.  `formatTs` agrees with it exactly when the
year is at least 1000. -/
def fixedWidthTs (d : PyDatetime) : Str :=
  pad4 d.year ++ pad3 d.doy ++ 'T' :: (pad2 d.hour ++ pad2 d.minute ++ pad2 d.second)

/-- Value of an all-digit string, `none` if any char is not a digit
(empty string gives `some 0`; callers check the length separately). -/
def digitsVal? (l : Str) : Option Nat :=
  l.foldl (fun acc c => acc.bind fun a => (charToDigit? c).map fun d => a * 10 + d)
    (some 0)

/-- One backtracking alternative of the `%H%M%S` tail of CPython's
`strptime` regex: hour/minute/second taking `a`/`b`/`c` digits that
must consume the whole remaining input, with the per-field value
bounds of the `TimeRE` character classes (`%H` ≤ 23, `%M`/`%S` ≤ 59). -/
def hmsSplit (a b c : Nat) (l : Str) : Option (Nat × Nat × Nat) :=
  if l.length = a + b + c then
    match digitsVal? (l.take a), digitsVal? ((l.drop a).take b),
        digitsVal? ((l.drop a).drop b) with
    | some h, some m, some s =>
      if h ≤ 23 && m ≤ 59 && s ≤ 59 then some (h, m, s) else none
    | _, _, _ => none
  else none

/-- The `%H%M%S` tail of `strptime`: each directive greedily prefers a
two-digit match, backtracking in the regex engine's order until the
remaining input is consumed exactly. -/
def parseHMS (l : Str) : Option (Nat × Nat × Nat) :=
  hmsSplit 2 2 2 l <|> hmsSplit 2 2 1 l <|> hmsSplit 2 1 2 l <|> hmsSplit 2 1 1 l <|>
    hmsSplit 1 2 2 l <|> hmsSplit 1 2 1 l <|> hmsSplit 1 1 2 l <|> hmsSplit 1 1 1 l

/-- Embedding of `strptime(s, "%Y%jT%H%M%S")`: `%Y` is exactly four
digits, `%j` is one to three digits valued 1..366, then the literal
`T` and the time of day.  CPython additionally converts `(year, %j)`
through `date.fromordinal`, which for a day-of-year beyond the year's
length rolls into the next calendar year and so can never reproduce
the input when formatted back; the embedding rejects such inputs
instead (equivalent for every claim quantified over valid, i.e.
calendar-consistent, identifiers), and likewise rejects year 0, which
`datetime` raises on. -/
def parseTs (l : Str) : Option PyDatetime :=
  match l with
  | y1 :: y2 :: y3 :: y4 :: rest =>
    match charToDigit? y1, charToDigit? y2, charToDigit? y3, charToDigit? y4 with
    | some a, some b, some c, some d =>
      let year := ((a * 10 + b) * 10 + c) * 10 + d
      let jchars := rest.takeWhile (fun ch => ch != 'T')
      match rest.dropWhile (fun ch => ch != 'T') with
      | 'T' :: hms =>
        match digitsVal? jchars with
        | some doy =>
          if 1 ≤ jchars.length ∧ jchars.length ≤ 3 ∧ 1 ≤ year ∧ 1 ≤ doy ∧
              doy ≤ daysInYear year then
            (parseHMS hms).map fun hmsv => ⟨year, doy, hmsv.1, hmsv.2.1, hmsv.2.2⟩
          else none
        | none => none
      | _ => none
    | _, _, _, _ => none
  | _ => none

/-! ## `common/models.py` -/

/-- `ProcessingOutcome`: the coarse success/failure projection. -/
inductive ProcessingOutcome where
  | SUCCESS
  | FAILURE
deriving Repr, DecidableEq

/-- `JobOutcome`: tri-state outcome of one compute attempt. -/
inductive JobOutcome where
  | SUCCESS
  | FAILURE_RETRYABLE
  | FAILURE_NONRETRYABLE
deriving Repr, DecidableEq

/-- `JobOutcome.processing_outcome`. -/
def JobOutcome.processing_outcome : JobOutcome → ProcessingOutcome
  | .SUCCESS => .SUCCESS
  | .FAILURE_RETRYABLE => .FAILURE
  | .FAILURE_NONRETRYABLE => .FAILURE

/-- `GranuleId`: product, platform, tile, acquisition begin timestamp
and version, as parsed from the dotted identifier string. -/
structure GranuleId where
  product : Str
  platform : Str
  tile : Str
  begin_datetime : PyDatetime
  version : Str
deriving Repr, DecidableEq

/-- `GranuleId.from_str`: split on `"."` into exactly six components
(the tuple unpacking in the source raises otherwise), parse the
timestamp, and rejoin the two version components with a dot. -/
def GranuleId.from_str (s : Str) : Option GranuleId :=
  match pySplit '.' s with
  | [product, platform, tile, ts, version_major, version_minor] =>
    (parseTs ts).map fun d =>
      { product := product, platform := platform, tile := tile,
        begin_datetime := d, version := version_major ++ '.' :: version_minor }
  | _ => none

/-- `GranuleId.__str__`: recombine the parts with `"."`. -/
def GranuleId.toStr (g : GranuleId) : Str :=
  pyJoin '.' [g.product, g.platform, g.tile, formatTs g.begin_datetime, g.version]

/-- `GranuleProcessingEvent`: granule id, attempt counter and optional
debug-bucket override.  The attempt counter is non-negative (created
at 0 and only ever incremented), so it is embedded as `Nat`. -/
structure GranuleProcessingEvent where
  granule_id : Str
  attempt : Nat := 0
  debug_bucket : Option Str := none
deriving Repr, DecidableEq

/-- `GranuleProcessingEvent.new_attempt`. -/
def GranuleProcessingEvent.new_attempt (e : GranuleProcessingEvent) :
    GranuleProcessingEvent :=
  { granule_id := e.granule_id, attempt := e.attempt + 1,
    debug_bucket := e.debug_bucket }

/-- `GranuleProcessingEvent.to_envvar`: the `DEBUG_BUCKET` entry is only
included when `debug_bucket` is truthy (a non-empty string). -/
def GranuleProcessingEvent.to_envvar (e : GranuleProcessingEvent) :
    List (Str × Str) :=
  [("GRANULE_ID".data, e.granule_id), ("ATTEMPT".data, natToStr e.attempt)] ++
    (match e.debug_bucket with
     | some b => if b = [] then [] else [("DEBUG_BUCKET".data, b)]
     | none => [])

/-- `GranuleProcessingEvent.from_envvar`: requires `GRANULE_ID` and
`ATTEMPT` (raising, i.e. `none`, otherwise), reads `DEBUG_BUCKET`
when present. -/
def GranuleProcessingEvent.from_envvar (env : List (Str × Str)) :
    Option GranuleProcessingEvent :=
  match dictGet? env "GRANULE_ID".data, dictGet? env "ATTEMPT".data with
  | some gid, some att =>
    (strToNat? att).map fun n =>
      { granule_id := gid, attempt := n, debug_bucket := dictGet? env "DEBUG_BUCKET".data }
  | _, _ => none

/-- `GranuleProcessingEvent.to_environment`: the env-var dict as a list
of AWS Batch `{name, value}` pairs (order preserving). -/
def GranuleProcessingEvent.to_environment (e : GranuleProcessingEvent) :
    List (Str × Str) :=
  e.to_envvar

/-! ## `common/aws_batch.py` -/

/-- The `container` member of an AWS Batch job-detail payload.  Only the
exit code and the environment pairs are ever read.  `exitCode` is
absent (`none`) for infrastructure-level terminations such as SPOT
interruptions. -/
structure ContainerDetail where
  exitCode : Option Int
  environment : List (Str × Str)
deriving Repr, DecidableEq

/-- `JobDetails`: container for an AWS Batch job-detail payload.  The
`attempts` array's entries are opaque: only its length is read. -/
structure JobDetails where
  jobId : Str
  attempts : List Unit
  container : Option ContainerDetail
deriving Repr, DecidableEq

/-- `JobDetails.attempts` (the property): number of internal AWS Batch
attempts, `len(detail.get("attempts", []))`. -/
def JobDetails.attemptCount (d : JobDetails) : Nat :=
  d.attempts.length

/-- `JobDetails.exit_code`: `detail.get("container", {}).get("exitCode")`. -/
def JobDetails.exit_code (d : JobDetails) : Option Int :=
  d.container.bind fun c => c.exitCode

/-- `JobDetails.get_job_outcome`: exit code 0 is success, a missing exit
code a retryable failure, any other exit code a non-retryable one. -/
def JobDetails.get_job_outcome (d : JobDetails) : JobOutcome :=
  if d.exit_code = some 0 then .SUCCESS
  else if d.exit_code = none then .FAILURE_RETRYABLE
  else .FAILURE_NONRETRYABLE

/-- `JobDetails.get_granule_event`: rebuild the processing event from
the container environment, keeping only the `GRANULE_ID` and
`ATTEMPT` entries.  Indexing `detail["container"]` raises when the
container is absent, hence `none` there. -/
def JobDetails.get_granule_event (d : JobDetails) : Option GranuleProcessingEvent :=
  d.container.bind fun c =>
    GranuleProcessingEvent.from_envvar
      ((c.environment.filter fun p =>
          p.1 = "GRANULE_ID".data ∨ p.1 = "ATTEMPT".data).foldl
        (fun m p => dictInsert m p.1 p.2) [])

/-- Loop body of `AwsBatchClient.active_jobs_below_threshold`: running
job count over the pages of `list_jobs` results, returning `false` as
soon as the count reaches the threshold. -/
def activeJobsLoop (threshold : Int) : Nat → List Nat → Bool
  | count, [] => (count : Int) < threshold
  | count, p :: rest =>
    if (((count + p : Nat)) : Int) ≥ threshold then false
    else activeJobsLoop threshold (count + p) rest

/-- `AwsBatchClient.active_jobs_below_threshold`: paginates over every
active status; `pages` is the flattened list of page sizes. -/
def active_jobs_below_threshold (pages : List Nat) (threshold : Int) : Bool :=
  activeJobsLoop threshold 0 pages

/-! ## `common/granule_tracker.py` -/

/-- A row of a granule inventory (catalog) file: only the `granule_id`
and `status` columns are read. -/
structure Row where
  granule_id : Str
  status : Str
deriving Repr, DecidableEq

/-- The immutable catalog: rows of each inventory file by its path. -/
abbrev Catalog := Str → List Row

/-- `InventoryProgress`: submission cursor over one inventory file.
Counts are Python `int`s, embedded as `Int`. -/
structure InventoryProgress where
  inventory : Str
  submitted_count : Int
  total_count : Int
deriving Repr, DecidableEq

/-- `InventoryProgress.identifier`: `inventory.split("/")[-1]`, the
final path component. -/
def InventoryProgress.identifier (p : InventoryProgress) : Str :=
  (pySplit '/' p.inventory).getLastD []

/-- `InventoryProgress.is_complete`: `submitted_count == total_count`. -/
def InventoryProgress.is_complete (p : InventoryProgress) : Bool :=
  p.submitted_count == p.total_count

/-- `InventoryTracking`: insertion-ordered dict from inventory
identifier to progress, plus the concurrency token.  The S3 ETag is
an opaque token; it is embedded as a `Nat` drawn fresh from the store
on every write. -/
structure InventoryTracking where
  inventories : List (Str × InventoryProgress)
  etag : Nat
deriving Repr, DecidableEq

/-- `InventoryTracking.new`: build the dict keyed by each inventory's
identifier (a dict comprehension: a repeated identifier overwrites in
place, keeping the first position and the last value). -/
def InventoryTracking.new (invs : List InventoryProgress) (etag : Nat) :
    InventoryTracking :=
  { inventories := invs.foldl (fun m inv => dictInsert m inv.identifier inv) [],
    etag := etag }

/-- `InventoryTracking.is_complete`: all member inventories complete. -/
def InventoryTracking.is_complete (t : InventoryTracking) : Bool :=
  t.inventories.all fun kv => kv.2.is_complete

/-- `InventoryTracking.get_next_inventory`: the first incomplete
inventory in dict (insertion) order. -/
def InventoryTracking.get_next_inventory (t : InventoryTracking) :
    Option InventoryProgress :=
  ((t.inventories.filter fun kv => !kv.2.is_complete).head?).map Prod.snd

/-- `InventoryTracking.increment_progress`: add `count` to the
submitted count of the entry keyed by `inv.identifier`.  (The source
also returns the new count, used only in an assert that always holds;
the embedding returns the updated tracking.) -/
def InventoryTracking.increment_progress (t : InventoryTracking)
    (inv : InventoryProgress) (count : Int) : InventoryTracking :=
  { t with
    inventories := t.inventories.map fun kv =>
      if kv.1 = inv.identifier then
        (kv.1, { kv.2 with submitted_count := kv.2.submitted_count + count })
      else kv }

/-- Errors surfaced by the blob-store conditional writes: `conflict` is
botocore's `PreconditionFailed` on `IfMatch`/`IfNoneMatch`,
`notFound` is `NoSuchKey`. -/
inductive LedgerErr where
  | conflict
  | notFound
deriving Repr, DecidableEq

/-- The ledger object on S3: serialized inventory-progress records
(NDJSON stores only the dict values; keys are re-derived on read) and
the object's current ETag.  `fresh` generates the next ETag. -/
structure LedgerStore where
  obj : Option (List InventoryProgress × Nat)
  fresh : Nat
deriving Repr, DecidableEq

/-- `put_object(..., IfMatch=etag)`: replace the object only if its
current ETag equals the expected one, returning the new ETag. -/
def putIfMatch (st : LedgerStore) (expected : Nat) (body : List InventoryProgress) :
    Except LedgerErr (Nat × LedgerStore) :=
  match st.obj with
  | none => .error .notFound
  | some (_, e) =>
    if e = expected then .ok (st.fresh, ⟨some (body, st.fresh), st.fresh + 1⟩)
    else .error .conflict

/-- `put_object(..., IfNoneMatch="*")`: create the object only if none
exists. -/
def putIfNoneMatch (st : LedgerStore) (body : List InventoryProgress) :
    Except LedgerErr (Nat × LedgerStore) :=
  match st.obj with
  | some _ => .error .conflict
  | none => .ok (st.fresh, ⟨some (body, st.fresh), st.fresh + 1⟩)

/-- `GranuleTrackerService.get_tracking`: read the ledger object and
rebuild the tracking from its records (`from_ndjson` goes through
`InventoryTracking.new`); `none` is `InventoryTrackingNotFoundError`. -/
def get_tracking (st : LedgerStore) : Option InventoryTracking :=
  st.obj.map fun be => InventoryTracking.new be.1 be.2

/-- `GranuleTrackerService.update_tracking`: conditional replace gated
on the tracking's concurrency token; on success the returned tracking
carries the fresh token (`dataclasses.replace`).  Errors from the
conditional put are propagated, never caught here. -/
def update_tracking (st : LedgerStore) (t : InventoryTracking) :
    Except LedgerErr (InventoryTracking × LedgerStore) :=
  (putIfMatch st t.etag (t.inventories.map Prod.snd)).map fun es =>
    ({ t with etag := es.1 }, es.2)

/-- Does a key match `INVENTORY_REGEX`, i.e.
`.*cumulus_rds_granule.*.parquet$`?  (The dot before `parquet` is an
unescaped any-char.)  `containsSeq l pat` is substring search. -/
def containsSeq (l pat : Str) : Bool :=
  if pat.isPrefixOf l then true
  else match l with
    | [] => false
    | _ :: tl => containsSeq tl pat

/-- `INVENTORY_REGEX.match(key)`: ends with `parquet`, with
`cumulus_rds_granule` occurring at least one character before it. -/
def inventoryRegexMatch (key : Str) : Bool :=
  "parquet".data.isSuffixOf key &&
    containsSeq (key.take (key.length - 8)) "cumulus_rds_granule".data

/-- `GranuleTrackerService._list_inventories`: the bucket's keys (in S3
listing order) matching the inventory pattern, as `s3://` URIs. -/
def listInventories (bucket : Str) (keys : List Str) : List Str :=
  (keys.filter inventoryRegexMatch).map fun k =>
    "s3://".data ++ bucket ++ '/' :: k

/-- `GranuleTrackerService.create_tracking`: build zeroed cursors for
every discovered inventory (total counts from the catalog row counts),
then conditionally create the ledger object (failing if it already
exists) and take its ETag. -/
def create_tracking (bucket : Str) (keys : List Str) (catalog : Catalog)
    (st : LedgerStore) : Except LedgerErr (InventoryTracking × LedgerStore) :=
  let invs := (listInventories bucket keys).map fun f =>
    { inventory := f, submitted_count := 0,
      total_count := ((catalog f).length : Int) : InventoryProgress }
  let tracking := InventoryTracking.new invs 0
  (putIfNoneMatch st (tracking.inventories.map Prod.snd)).map fun es =>
    ({ tracking with etag := es.1 }, es.2)

/-- `range(lo, hi)` over Python ints. -/
def intRange (lo hi : Int) : List Int :=
  (List.range (hi - lo).toNat).map fun k => lo + (k : Int)

/-- `GranuleTrackerService.get_next_granule_ids`: take the next `count`
row positions of the first incomplete inventory, keep only rows whose
`status == "completed"`, and advance that inventory's cursor by the
number of row positions consumed (not the number of rows returned). -/
def get_next_granule_ids (catalog : Catalog) (t : InventoryTracking)
    (count : Int) : InventoryTracking × List Str :=
  match t.get_next_inventory with
  | none => (t, [])
  | some inv =>
    let end_row := min (inv.submitted_count + count) inv.total_count
    let next_rows := intRange inv.submitted_count end_row
    let table := next_rows.filterMap fun i => (catalog inv.inventory).get? i.toNat
    let completed_granule_ids :=
      (table.filter fun r => r.status == "completed".data).map fun r => r.granule_id
    (t.increment_progress inv (end_row - inv.submitted_count), completed_granule_ids)

/-! ## `common/granule_logger.py`

Log objects live under
`{logs_prefix}/outcome={o}/platform={p}/acquisition_date={Y-m-d}/granule_id={g}/attempt={n}.json`.
The store is embedded as an insertion-ordered map from S3 key to the
stored `GranuleEventJobLog`. -/

/-- Month lengths, for converting a day-of-year to `%m-%d`. -/
def monthLengths (leap : Bool) : List Nat :=
  [31, if leap then 29 else 28, 31, 30, 31, 30, 31, 31, 30, 31, 30, 31]

/-- Walk the months to split a day-of-year into (month, day). -/
def doyToMonthDayGo : Nat → List Nat → Nat → Nat × Nat
  | m, [], d => (m, d)
  | m, len :: rest, d => if d ≤ len then (m, d) else doyToMonthDayGo (m + 1) rest (d - len)

/-- (month, day) of a (1-based) day-of-year. -/
def doyToMonthDay (leap : Bool) (doy : Nat) : Nat × Nat :=
  doyToMonthDayGo 1 (monthLengths leap) doy

/-- `begin_datetime.strftime("%Y-%m-%d")` (with the platform's
unpadded `%Y`, as in `formatTs`). -/
def acquisitionDate (d : PyDatetime) : Str :=
  let md := doyToMonthDay (isLeap d.year) d.doy
  natToStr d.year ++ '-' :: (pad2 md.1 ++ '-' :: pad2 md.2)

/-- `outcome_to_prefix`: S3 path component of a processing outcome. -/
def outcomeSegment : ProcessingOutcome → Str
  | .SUCCESS => "success".data
  | .FAILURE => "failure".data

/-- `prefix_to_outcome` lookup; `none` is the `KeyError`. -/
def segmentToOutcome? (w : Str) : Option ProcessingOutcome :=
  if w = "success".data then some .SUCCESS
  else if w = "failure".data then some .FAILURE
  else none

/-- Python `str.rstrip("/")`. -/
def rstripSlash (l : Str) : Str :=
  (l.reverse.dropWhile fun c => c == '/').reverse

/-- `GranuleLoggerService._prefix_for_granule_id_outcome`: directory
(S3 key without the bucket) holding one granule's logs for one
outcome. -/
def granuleDir (logsRoot : Str) (gid : GranuleId) (outcome : ProcessingOutcome) :
    Str :=
  rstripSlash logsRoot ++ '/' ::
    ("outcome=".data ++ outcomeSegment outcome ++ '/' ::
      ("platform=".data ++ gid.platform ++ '/' ::
        ("acquisition_date=".data ++ acquisitionDate gid.begin_datetime ++ '/' ::
          ("granule_id=".data ++ gid.toStr))))

/-- `GranuleLoggerService._path_for_event_outcome`: the attempt-log key
for an event and outcome (`none` when the event's granule id does not
parse, where the source raises). -/
def pathForEventOutcome (logsRoot : Str) (e : GranuleProcessingEvent)
    (outcome : ProcessingOutcome) : Option Str :=
  (GranuleId.from_str e.granule_id).map fun gid =>
    granuleDir logsRoot gid outcome ++ '/' ::
      ("attempt=".data ++ natToStr e.attempt ++ ".json".data)

/-- `GranuleEventJobLog`: one logged attempt; the raw job detail is
stored verbatim for audit. -/
structure GranuleEventJobLog where
  granule_id : Str
  attempt : Nat
  outcome : JobOutcome
  job_info : JobDetails
deriving Repr, DecidableEq

/-- The attempt-log partition on S3: key to stored log record. -/
abbrev LogStore := List (Str × GranuleEventJobLog)

/-- `attempt_log_regex`: does a basename match `^attempt=[0-9]+\.json$`? -/
def attemptLogMatch (l : Str) : Bool :=
  "attempt=".data.isPrefixOf l &&
    (let r := l.drop 8
     ".json".data.isSuffixOf r &&
       (let ds := r.take (r.length - 5)
        !ds.isEmpty && ds.all fun c => (charToDigit? c).isSome))

/-- `iter_objects` filtered by `_filter_attempt_log`: keys under the
directory whose basename is an attempt log, in store order. -/
def listKeysUnder (store : LogStore) (dir : Str) : List Str :=
  ((store.map Prod.fst).filter fun k => (dir ++ ['/']).isPrefixOf k).filter
    fun k => attemptLogMatch ((pySplit '/' k).getLastD [])

/-- `GranuleLoggerService._list_logs_for_outcome`. -/
def listLogsForOutcome (logsRoot : Str) (store : LogStore) (granule_id : Str)
    (outcome : ProcessingOutcome) : Option (List Str) :=
  (GranuleId.from_str granule_id).map fun gid =>
    listKeysUnder store (granuleDir logsRoot gid outcome)

/-- Python `\w` (ASCII): letters, digits and underscore. -/
def isWordChar (c : Char) : Bool :=
  c.isAlphanum || c == '_'

/-- Strip a literal leading tag, or fail. -/
def stripPre? (tag l : Str) : Option Str :=
  if tag.isPrefixOf l then some (l.drop tag.length) else none

/-- One `tag=(class+)` component of `log_path_regex`. -/
def parseLogComponent (tag : Str) (clsOk : Char → Bool) (comp : Str) : Option Str :=
  (stripPre? tag comp).bind fun w =>
    if !w.isEmpty && w.all clsOk then some w else none

/-- `GranuleLoggerService._path_to_event_outcome`: strip the logs
prefix and leading slashes, then match the five path components of
`log_path_regex`, recovering the event (attempt from the basename)
and the partition outcome. -/
def parseLogPath (logsRoot : Str) (key : Str) :
    Option (GranuleProcessingEvent × ProcessingOutcome) :=
  let path := (if logsRoot.isPrefixOf key then key.drop logsRoot.length else key).dropWhile
    fun c => c == '/'
  match pySplit '/' path with
  | [oc, pc, ac, gc, attc] =>
    (parseLogComponent "outcome=".data isWordChar oc).bind fun ow =>
    (parseLogComponent "platform=".data isWordChar pc).bind fun _ =>
    (parseLogComponent "acquisition_date=".data
        (fun c => (charToDigit? c).isSome || c == '-') ac).bind fun _ =>
    (parseLogComponent "granule_id=".data
        (fun c => isWordChar c || c == '.') gc).bind fun gw =>
    (stripPre? "attempt=".data attc).bind fun r =>
    if ".json".data.isSuffixOf r then
      let ds := r.take (r.length - 5)
      if !ds.isEmpty && (ds.all fun c => (charToDigit? c).isSome) then
        (strToNat? ds).bind fun n =>
          (segmentToOutcome? ow).map fun outcome =>
            ({ granule_id := gw, attempt := n, debug_bucket := none }, outcome)
      else none
    else none
  | _ => none

/-- `delete` of one key. -/
def deleteKey (store : LogStore) (k : Str) : LogStore :=
  store.filter fun kv => !(kv.1 == k)

/-- Body of `_clean_failures`: for each failure-partition key, re-derive
the event from the path, copy the object to the corresponding
SUCCESS-partition key (`overwrite=True`) and delete the failure copy. -/
def cleanFailuresGo (logsRoot : Str) : LogStore → List Str → Option LogStore
  | store, [] => some store
  | store, fp :: rest =>
    (parseLogPath logsRoot fp).bind fun eo =>
    (pathForEventOutcome logsRoot eo.1 .SUCCESS).bind fun spath =>
    (dictGet? store fp).bind fun content =>
    cleanFailuresGo logsRoot (deleteKey (dictInsert store spath content) fp) rest

/-- `GranuleLoggerService._clean_failures`. -/
def clean_failures (logsRoot : Str) (store : LogStore) (granule_id : Str) :
    Option LogStore :=
  (listLogsForOutcome logsRoot store granule_id .FAILURE).bind
    (cleanFailuresGo logsRoot store)

/-- `GranuleLoggerService.put_event_details`: log the attempt under the
partition of its outcome; after a SUCCESS write, promote that
granule's failure logs. -/
def put_event_details (logsRoot : Str) (store : LogStore) (details : JobDetails) :
    Option LogStore :=
  (details.get_granule_event).bind fun event =>
  let job_outcome := details.get_job_outcome
  (pathForEventOutcome logsRoot event job_outcome.processing_outcome).bind fun s3path =>
  let event_log : GranuleEventJobLog :=
    { granule_id := event.granule_id, attempt := event.attempt,
      outcome := job_outcome, job_info := details }
  let store := dictInsert store s3path event_log
  if job_outcome.processing_outcome = ProcessingOutcome.SUCCESS then
    clean_failures logsRoot store event.granule_id
  else some store

/-! ## `job_monitor/handler.py` -/

/-- An AWS Batch job state-change event; only `detail` is read. -/
structure JobChangeEvent where
  detail : JobDetails
deriving Repr, DecidableEq

/-- One `sqs.send_message` call. -/
structure QueueMessage where
  queueUrl : Str
  body : GranuleProcessingEvent
  failureType : Str
deriving Repr, DecidableEq

/-- `job_monitor`: classify the event's outcome, log it, then route a
new-attempt message by outcome: retryable failures to the retry
queue, non-retryable ones to the DLQ, successes nowhere.  Returns the
updated log store and the messages sent (`none` embeds the raised
exceptions for malformed payloads). -/
def job_monitor (logsRoot retry_queue_url failure_dlq_url : Str)
    (store : LogStore) (job_change_event : JobChangeEvent) :
    Option (LogStore × List QueueMessage) :=
  let details := job_change_event.detail
  (details.get_granule_event).bind fun granule_event =>
  let outcome := details.get_job_outcome
  (put_event_details logsRoot store details).map fun store1 =>
  (store1,
    if outcome = JobOutcome.FAILURE_RETRYABLE then
      [{ queueUrl := retry_queue_url, body := granule_event.new_attempt,
         failureType := "RETRYABLE".data }]
    else if outcome = JobOutcome.FAILURE_NONRETRYABLE then
      [{ queueUrl := failure_dlq_url, body := granule_event.new_attempt,
         failureType := "NONRETRYABLE".data }]
    else [])

/-! ## `queue_feeder/handler.py` -/

/-- Ledger operations performed during one feeder invocation. -/
inductive LedgerOp where
  | read
  | create
  | update
deriving Repr, DecidableEq

/-- The external state a feeder invocation touches. -/
structure FeederEnv where
  bucket : Str
  objectKeys : List Str
  catalog : Catalog
  ledger : LedgerStore
  batchPages : List Nat

/-- Result of one feeder invocation: final ledger state, submitted
events, the ledger operations performed, and the handler's return
value (`none` is the early-exit `{}`). -/
structure FeederResult where
  ledger : LedgerStore
  submitted : List GranuleProcessingEvent
  ops : List LedgerOp
  result : Option InventoryTracking

/-- Tail of `queue_feeder` after the tracking is in hand: pull the next
granule ids, submit each as attempt 0, and commit the advanced ledger
unless running in debug mode. -/
def feederSubmit (env : FeederEnv) (ops : List LedgerOp) (tracking : InventoryTracking)
    (ledger : LedgerStore) (granule_submit_count : Int) (debug : Bool) :
    Except LedgerErr FeederResult :=
  let tg := get_next_granule_ids env.catalog tracking granule_submit_count
  let submitted : List GranuleProcessingEvent := tg.2.map fun gid =>
    { granule_id := gid, attempt := 0, debug_bucket := none }
  if debug then .ok ⟨ledger, submitted, ops, some tg.1⟩
  else
    (update_tracking ledger tg.1).map fun ts =>
      ⟨ts.2, submitted, ops ++ [LedgerOp.update], some tg.1⟩

/-- `queue_feeder`: admission control first — with no headroom, return
`{}` without touching the ledger.  Otherwise get-or-create the
tracking, submit the next batch, and conditionally update the ledger
(errors propagate). -/
def queue_feeder (env : FeederEnv) (max_active_jobs : Int)
    (granule_submit_count : Int) (debug : Bool) : Except LedgerErr FeederResult :=
  if !(active_jobs_below_threshold env.batchPages max_active_jobs) then
    .ok ⟨env.ledger, [], [], none⟩
  else
    match get_tracking env.ledger with
    | some tracking =>
      feederSubmit env [LedgerOp.read] tracking env.ledger granule_submit_count debug
    | none =>
      (create_tracking env.bucket env.objectKeys env.catalog env.ledger).bind fun ts =>
        feederSubmit env [LedgerOp.read, LedgerOp.create] ts.1 ts.2
          granule_submit_count debug

/-! ## Claim-level predicates and concrete inputs -/

/-- `PROCESSING_JOB_RETRY_ATTEMPTS` from the deployment settings
(`cdk/settings.py`): the configured maximum internal retry budget,
passed to the job monitor's environment. -/
def PROCESSING_JOB_RETRY_ATTEMPTS : Nat := 3

/-- Submitted count recorded for identifier `k` (0 if absent). -/
def submittedOf (t : InventoryTracking) (k : Str) : Int :=
  match dictGet? t.inventories k with
  | some p => p.submitted_count
  | none => 0

/-- Structural well-formedness of a tracking as produced by
`InventoryTracking.new` (hence by `create_tracking`/`get_tracking`):
unique keys, each key the identifier of its value, and cursors within
bounds. -/
def TrackingWF (t : InventoryTracking) : Prop :=
  (t.inventories.map Prod.fst).Nodup ∧
    ∀ kv ∈ t.inventories, kv.1 = kv.2.identifier ∧
      0 ≤ kv.2.submitted_count ∧ kv.2.submitted_count ≤ kv.2.total_count

instance (t : InventoryTracking) : Decidable (TrackingWF t) := by
  unfold TrackingWF; infer_instance

/-- A sequence of `get_next_granule_ids` calls, keeping the tracking. -/
def runCalls (catalog : Catalog) (t : InventoryTracking) (ns : List Int) :
    InventoryTracking :=
  ns.foldl (fun t n => (get_next_granule_ids catalog t n).1) t

/-- Field bounds under which a `datetime` exists: a year in
`datetime`'s range, a calendar-consistent day-of-year and in-range
time-of-day fields. -/
def PyDatetime.inRange (d : PyDatetime) : Prop :=
  1 ≤ d.year ∧ d.year ≤ 9999 ∧ 1 ≤ d.doy ∧ d.doy ≤ daysInYear d.year ∧
    d.hour ≤ 23 ∧ d.minute ≤ 59 ∧ d.second ≤ 59

instance (d : PyDatetime) : Decidable d.inRange := by
  unfold PyDatetime.inRange; infer_instance

/-- A valid granule-identifier string: the fixed
`product.platform.tile.timestamp.version` format — five dot-free
fields (the version containing one further dot) around a timestamp in
the fixed-width `%Y%jT%H%M%S` layout of a calendar-consistent
datetime. -/
def validGranuleIdStr (s : Str) : Prop :=
  ∃ p pl t d vM vm, '.' ∉ p ∧ '.' ∉ pl ∧ '.' ∉ t ∧ '.' ∉ vM ∧ '.' ∉ vm ∧
    PyDatetime.inRange d ∧ s = pyJoin '.' [p, pl, t, fixedWidthTs d, vM, vm]

/-- A valid granule-identifier string whose year field has no leading
zero (year at least 1000): the domain on which the platform's
unpadded `%Y` reproduces the four-digit year field. -/
def validGranuleIdStrY4 (s : Str) : Prop :=
  ∃ p pl t d vM vm, '.' ∉ p ∧ '.' ∉ pl ∧ '.' ∉ t ∧ '.' ∉ vM ∧ '.' ∉ vm ∧
    PyDatetime.inRange d ∧ 1000 ≤ d.year ∧
    s = pyJoin '.' [p, pl, t, fixedWidthTs d, vM, vm]

/-- A concrete, well-formed granule identifier string. -/
def gidA : Str := "HLS.S30.T01GBH.2022226T214921.v2.0".data

/-- Logs prefix used in the concrete scenarios. -/
def logsRootA : Str := "logs".data

/-- A job-detail payload for `gidA` at a given attempt and exit code,
with one entry in the internal `attempts` array. -/
def detailA (att : Nat) (ec : Option Int) : JobDetails :=
  { jobId := "job-1".data, attempts := [()],
    container := some
      ⟨ec, [("GRANULE_ID".data, gidA), ("ATTEMPT".data, natToStr att)]⟩ }

/-- C1 failing input: a FAILURE_RETRYABLE job state-change event (no
exit code) whose internal attempt count (1) is below the configured
budget (3). -/
def c1event : JobChangeEvent := ⟨detailA 0 none⟩

/-- C3 catalog: one inventory file with the three rows of the spec's
end-to-end scenario. -/
def c3cat : Catalog := fun _ =>
  [⟨"A".data, "completed".data⟩, ⟨"B".data, "queued".data⟩,
   ⟨"C".data, "completed".data⟩]

/-- C3 tracking: single catalog file, cursor 0, total 3. -/
def c3t0 : InventoryTracking :=
  InventoryTracking.new [⟨"s3://b/inv.parquet".data, 0, 3⟩] 0

/-- C4 counterexample: two distinct discovered catalog keys sharing the
final path component. -/
def c4keys : List Str :=
  ["inv/a/PROD_cumulus_rds_granule_x.parquet".data,
   "inv/b/PROD_cumulus_rds_granule_x.parquet".data]

/-- C4 counterexample bucket. -/
def c4bucket : Str := "bkt".data

/-- C4 counterexample catalog (row counts are irrelevant). -/
def c4catalog : Catalog := fun _ => []

/-- C4 counterexample: an empty ledger store. -/
def c4ledger : LedgerStore := ⟨none, 0⟩

/-- C5 store after logging two failed attempts then one successful
attempt for the same granule. -/
def c5finalStore : Option LogStore :=
  (put_event_details logsRootA [] (detailA 0 (some 1))).bind fun s1 =>
  (put_event_details logsRootA s1 (detailA 1 (some 1))).bind fun s2 =>
  put_event_details logsRootA s2 (detailA 2 (some 0))

/-- C7 counterexample tracking: cursor already at 2 of 3. -/
def c7t0 : InventoryTracking :=
  InventoryTracking.new [⟨"inv.parquet".data, 2, 3⟩] 0

/-- C7 counterexample catalog. -/
def c7cat : Catalog := fun _ => []

/-- C2 witness: a ledger store holding an object with ETag 7. -/
def c2store : LedgerStore := ⟨some ([⟨"inv.parquet".data, 0, 3⟩], 7), 8⟩

/-- C2 witness: a tracking carrying the token read from `c2store`. -/
def c2tracking : InventoryTracking :=
  InventoryTracking.new [⟨"inv.parquet".data, 1, 3⟩] 7

/-- C9 witness environment: one active-jobs page of size 5. -/
def c9env : FeederEnv :=
  { bucket := "bkt".data, objectKeys := [], catalog := fun _ => [],
    ledger := ⟨some ([], 0), 1⟩, batchPages := [5] }

/-! ## Theorems -/

/-- C1 (code bug witness): on a FAILURE_RETRYABLE job state-change
event whose backend-reported internal attempt count (1) is strictly
below the configured internal retry budget
`PROCESSING_JOB_RETRY_ATTEMPTS` (3), `job_monitor` nevertheless sends
exactly one retry-queue message, carrying attempt = original + 1.
The monitor never consults the attempt count, contradicting the
spec's routing rule and the repository's own
`test_handler_retryable_failure_doesnt_requeue_nonfinal_attempt`. -/
theorem job_monitor_requeues_below_internal_budget :
    c1event.detail.attemptCount < PROCESSING_JOB_RETRY_ATTEMPTS ∧
    (job_monitor logsRootA "retry-queue".data "failure-dlq".data [] c1event).map
        Prod.snd =
      some [{ queueUrl := "retry-queue".data,
              body := { granule_id := gidA, attempt := 1, debug_bucket := none },
              failureType := "RETRYABLE".data }] := by
  constructor
  · decide
  · rfl

/-- C3: over a single catalog file with rows
[("A","completed"), ("B","queued"), ("C","completed")] and cursor 0,
`get_next_granule_ids(tracking, 3)` returns `["A", "C"]` and advances
the file's `submitted_count` to 3 — the skipped row still consumes a
cursor position. -/
theorem get_next_granule_ids_skips_noncompleted :
    (get_next_granule_ids c3cat c3t0 3).2 = ["A".data, "C".data] ∧
    submittedOf (get_next_granule_ids c3cat c3t0 3).1 "inv.parquet".data = 3 := by
  constructor
  · rfl
  · rfl

/-- C5: after logging two failed attempts and then one successful
attempt for the same granule, the FAILURE partition holds zero
attempt logs for that granule and the SUCCESS partition holds exactly
three. -/
theorem put_event_details_promotes_failures :
    c5finalStore.map (fun st =>
        ((listLogsForOutcome logsRootA st gidA .FAILURE).map List.length,
         (listLogsForOutcome logsRootA st gidA .SUCCESS).map List.length)) =
      some (some 0, some 3) := by
  decide

/-- C4 (counterexample): two distinct discovered catalog files sharing
a final path component collapse into a single ledger entry, so the
tracking does not hold one entry per discovered file. -/
theorem create_tracking_collapses_duplicate_identifiers :
    (listInventories c4bucket c4keys).length = 2 ∧
    (create_tracking c4bucket c4keys c4catalog c4ledger).toOption.map
        (fun ts => ts.1.inventories.length) = some 1 := by
  constructor
  · decide
  · rfl

/-- C6: the outcome classification is the deterministic function of the
exit code: 0 is SUCCESS, absent is FAILURE_RETRYABLE, any other value
FAILURE_NONRETRYABLE. -/
theorem get_job_outcome_classification (d : JobDetails) :
    (d.exit_code = some 0 → d.get_job_outcome = .SUCCESS) ∧
    (d.exit_code = none → d.get_job_outcome = .FAILURE_RETRYABLE) ∧
    (∀ c : Int, d.exit_code = some c → c ≠ 0 →
      d.get_job_outcome = .FAILURE_NONRETRYABLE) := by
  unfold JobDetails.get_job_outcome
  refine ⟨fun h => ?_, fun h => ?_, fun c hc hc0 => ?_⟩
  · rw [if_pos h]
  · rw [if_neg (by simp [h]), if_pos h]
  · rw [if_neg (by simp [hc, hc0]), if_neg (by simp [hc])]

/-- C6 witness: the classification evaluated at three concrete
payloads, one per branch. -/
theorem get_job_outcome_classification_witness :
    (detailA 0 (some 0)).get_job_outcome = .SUCCESS ∧
    (detailA 0 none).get_job_outcome = .FAILURE_RETRYABLE ∧
    (detailA 0 (some 1)).get_job_outcome = .FAILURE_NONRETRYABLE :=
  ⟨(get_job_outcome_classification (detailA 0 (some 0))).1 rfl,
   (get_job_outcome_classification (detailA 0 none)).2.1 rfl,
   (get_job_outcome_classification (detailA 0 (some 1))).2.2 1 rfl (by decide)⟩

/-- C7 (counterexample): a single `get_next_granule_ids` call with a
negative count strictly decreases the inventory's `submitted_count`
(from 2 to 0), so monotonicity fails without restricting the count to
be non-negative. -/
theorem get_next_granule_ids_negative_count_decreases :
    submittedOf (get_next_granule_ids c7cat c7t0 (-2)).1 "inv.parquet".data <
      submittedOf c7t0 "inv.parquet".data := by
  decide

/-- C2: with the ledger object present at token `e` (the token both
writers read) and the store's token generator fresh, an update with a
stale token surfaces `Conflict` unhandled; an update with the current
token succeeds, returning the same inventories under a fresh token;
and a second update still carrying the old token then receives
`Conflict` — exactly one of two concurrent writers wins. -/
theorem update_tracking_conditional_replace
    (st : LedgerStore) (body : List InventoryProgress) (e : Nat)
    (t1 t2 : InventoryTracking)
    (hobj : st.obj = some (body, e)) (hfresh : e < st.fresh)
    (h1 : t1.etag = e) (h2 : t2.etag = e) :
    (∀ t : InventoryTracking, t.etag ≠ e → update_tracking st t = .error .conflict) ∧
    ∃ t1' st', update_tracking st t1 = .ok (t1', st') ∧
      t1'.inventories = t1.inventories ∧ t1'.etag ≠ t1.etag ∧
      update_tracking st' t2 = .error .conflict := by
  constructor
  · intro t ht
    simp only [update_tracking, putIfMatch, hobj]
    rw [if_neg (fun hc => ht hc.symm)]
    rfl
  · refine ⟨{ t1 with etag := st.fresh },
      ⟨some (t1.inventories.map Prod.snd, st.fresh), st.fresh + 1⟩, ?_, rfl, ?_, ?_⟩
    · simp only [update_tracking, putIfMatch, hobj]
      rw [if_pos h1.symm]
      rfl
    · show st.fresh ≠ t1.etag
      omega
    · simp only [update_tracking, putIfMatch]
      rw [if_neg (by omega : ¬ st.fresh = t2.etag)]
      rfl

/-- C2 witness: the conditional-replace behavior evaluated on a
concrete store (object at token 7) and two writers both carrying
token 7. -/
theorem update_tracking_conditional_replace_witness :
    (∀ t : InventoryTracking, t.etag ≠ 7 →
      update_tracking c2store t = .error .conflict) ∧
    ∃ t1' st', update_tracking c2store c2tracking = .ok (t1', st') ∧
      t1'.inventories = c2tracking.inventories ∧ t1'.etag ≠ c2tracking.etag ∧
      update_tracking st' c2tracking = .error .conflict :=
  update_tracking_conditional_replace c2store [⟨"inv.parquet".data, 0, 3⟩] 7
    c2tracking c2tracking rfl (by decide) rfl rfl

/-- C9: when admission control reports no capacity, the feeder returns
the early-exit `{}` without reading, creating or updating the ledger
and without submitting any granule. -/
theorem queue_feeder_no_capacity_no_ledger_ops
    (env : FeederEnv) (max_active_jobs granule_submit_count : Int) (debug : Bool)
    (h : active_jobs_below_threshold env.batchPages max_active_jobs = false) :
    queue_feeder env max_active_jobs granule_submit_count debug =
      .ok ⟨env.ledger, [], [], none⟩ := by
  unfold queue_feeder
  rw [h]
  rfl

/-- C9 witness: a concrete environment with 5 active jobs against a
threshold of 3. -/
theorem queue_feeder_no_capacity_no_ledger_ops_witness :
    queue_feeder c9env 3 10 false = .ok ⟨c9env.ledger, [], [], none⟩ :=
  queue_feeder_no_capacity_no_ledger_ops c9env 3 10 false (by decide)

/-- Decimal digit characters decode to their value. -/
theorem charToDigit?_digitToChar (d : Nat) (h : d < 10) :
    charToDigit? (digitToChar d) = some d := by
  interval_cases d <;> decide

/-- The fuel-based digits agree with `Nat.digits 10`. -/
theorem natDigitsRev_eq_digits :
    ∀ fuel n, n ≤ fuel → natDigitsRev fuel n = Nat.digits 10 n := by
  intro fuel
  induction fuel with
  | zero =>
    intro n hn
    interval_cases n
    simp [natDigitsRev]
  | succ f ih =>
    intro n hn
    cases n with
    | zero => simp [natDigitsRev]
    | succ m =>
      rw [natDigitsRev, Nat.digits_def' (by norm_num : (1 : Nat) < 10) (Nat.succ_pos m)]
      rw [ih ((m + 1) / 10) (by omega)]

/-- Folding the digit decoder over a big-endian digit string recovers
the represented value. -/
theorem digitsFold (l : List Nat) (a : Nat) (h : ∀ d ∈ l, d < 10) :
    ((l.reverse.map digitToChar).foldl
        (fun acc c => acc.bind fun x => (charToDigit? c).map fun d => x * 10 + d)
        (some a)) = some (Nat.ofDigits 10 l + a * 10 ^ l.length) := by
  induction l generalizing a with
  | nil => simp
  | cons d tl ih =>
    simp only [List.reverse_cons, List.map_append, List.foldl_append, List.map_cons,
      List.map_nil, List.foldl_cons, List.foldl_nil]
    rw [ih a (fun x hx => h x (List.mem_cons_of_mem _ hx)),
      charToDigit?_digitToChar d (h d (List.mem_cons_self _ _))]
    show some ((Nat.ofDigits 10 tl + a * 10 ^ tl.length) * 10 + d) =
      some (Nat.ofDigits 10 (d :: tl) + a * 10 ^ (d :: tl).length)
    rw [Nat.ofDigits_cons]
    simp only [List.length_cons]
    ring_nf

/-- Python `int(str(n)) == n` for the non-negative attempt counters. -/
theorem strToNat?_natToStr (n : Nat) : strToNat? (natToStr n) = some n := by
  by_cases h0 : n = 0
  · subst h0
    rfl
  · unfold natToStr
    rw [if_neg h0, natDigitsRev_eq_digits n n le_rfl]
    unfold strToNat?
    rw [if_neg (by simp [Nat.digits_ne_nil_iff_ne_zero, h0])]
    rw [digitsFold _ 0 (fun d hd => Nat.digits_lt_base (by norm_num) hd)]
    simp [Nat.ofDigits_digits]

/-- C10: for every event, round-tripping through the submission
environment and `get_granule_event` preserves the granule id and
attempt but comes back with `debug_bucket = none`: the monitor's
extraction filters the environment down to `GRANULE_ID` and
`ATTEMPT`, silently dropping the debug-bucket override. -/
theorem granule_event_roundtrip_drops_debug_bucket
    (e : GranuleProcessingEvent) (jobId : Str) (atts : List Unit) (ec : Option Int)
    (h : e.debug_bucket.isSome = true) :
    (JobDetails.mk jobId atts (some ⟨ec, e.to_environment⟩)).get_granule_event =
      some { granule_id := e.granule_id, attempt := e.attempt,
             debug_bucket := none } := by
  obtain ⟨gid, att, db⟩ := e
  obtain ⟨b, rfl⟩ : ∃ b, db = some b := by
    cases db with
    | none => simp at h
    | some b => exact ⟨b, rfl⟩
  by_cases hb : b = [] <;>
    simp [JobDetails.get_granule_event, GranuleProcessingEvent.to_environment,
      GranuleProcessingEvent.to_envvar, GranuleProcessingEvent.from_envvar,
      dictInsert, dictGet?, List.filter, List.find?, hb, strToNat?_natToStr]

/-- C10 witness: a concrete event with the override set. -/
theorem granule_event_roundtrip_drops_debug_bucket_witness :
    (JobDetails.mk "j".data []
        (some ⟨some 0,
          GranuleProcessingEvent.to_environment
            ⟨gidA, 4, some "s3://debug".data⟩⟩)).get_granule_event =
      some { granule_id := gidA, attempt := 4, debug_bucket := none } :=
  granule_event_roundtrip_drops_debug_bucket
    ⟨gidA, 4, some "s3://debug".data⟩ "j".data [] (some 0) (by decide)

/-- Inserting a fresh key appends it. -/
theorem dictInsert_of_fresh {α : Type} (m : List (Str × α)) (k : Str) (v : α)
    (h : ∀ p ∈ m, p.1 ≠ k) : dictInsert m k v = m ++ [(k, v)] := by
  unfold dictInsert
  have hany : m.any (fun p => p.1 = k) = false := by
    rw [List.any_eq_false]
    intro p hp
    simpa using h p hp
  simp [hany]

/-- Keys of the dict-comprehension fold, when the inserted identifiers
are distinct and disjoint from the accumulator's keys. -/
theorem foldlInsert_keys (invs : List InventoryProgress) :
    ∀ m : List (Str × InventoryProgress),
      (invs.map InventoryProgress.identifier).Nodup →
      (∀ inv ∈ invs, ∀ p ∈ m, p.1 ≠ inv.identifier) →
      ((invs.foldl (fun m inv => dictInsert m inv.identifier inv) m).map Prod.fst =
        m.map Prod.fst ++ invs.map InventoryProgress.identifier) := by
  induction invs with
  | nil =>
    intro m _ _
    simp
  | cons inv rest ih =>
    intro m hnd hdis
    simp only [List.foldl_cons]
    rw [dictInsert_of_fresh m inv.identifier inv
      (fun p hp => hdis inv (List.mem_cons_self _ _) p hp)]
    rw [ih (m ++ [(inv.identifier, inv)]) (List.Nodup.of_cons hnd) ?_]
    · simp
    · intro i hi p hp
      rcases List.mem_append.mp hp with hm | hm
      · exact hdis i (List.mem_cons_of_mem _ hi) p hm
      · simp only [List.mem_singleton] at hm
        subst hm
        intro hbad
        have hbad' : inv.identifier = i.identifier := hbad
        have : inv.identifier ∈ rest.map InventoryProgress.identifier := by
          rw [hbad']
          exact List.mem_map_of_mem _ hi
        exact (List.nodup_cons.mp hnd).1 this

/-- C4 (amended): the keys of a tracking built at creation time are
exactly the discovered files' identifiers (final path components), in
discovery order — one entry per file provided the identifiers are
pairwise distinct; files sharing an identifier collapse into one
entry. -/
theorem inventory_tracking_new_one_entry_per_file
    (invs : List InventoryProgress) (etag : Nat)
    (h : (invs.map InventoryProgress.identifier).Nodup) :
    (InventoryTracking.new invs etag).inventories.map Prod.fst =
      invs.map InventoryProgress.identifier := by
  unfold InventoryTracking.new
  simpa using foldlInsert_keys invs [] h (by simp)

/-- C4 witness: two files with distinct basenames give one entry each. -/
theorem inventory_tracking_new_one_entry_per_file_witness :
    (InventoryTracking.new
        [⟨"inv/PROD_cumulus_rds_granule_a.parquet".data, 0, 1⟩,
         ⟨"inv/PROD_cumulus_rds_granule_b.parquet".data, 0, 2⟩] 0).inventories.map
        Prod.fst =
      ([⟨"inv/PROD_cumulus_rds_granule_a.parquet".data, 0, 1⟩,
        ⟨"inv/PROD_cumulus_rds_granule_b.parquet".data, 0, 2⟩] :
          List InventoryProgress).map InventoryProgress.identifier :=
  inventory_tracking_new_one_entry_per_file _ 0 (by decide)

/-- Pointwise monotonicity transfers through a key-preserving,
cursor-non-decreasing rewrite of the ledger entries. -/
theorem submittedOf_map_le (l : List (Str × InventoryProgress))
    (g : Str × InventoryProgress → Str × InventoryProgress)
    (hfst : ∀ kv, (g kv).1 = kv.1)
    (hmono : ∀ kv, kv.2.submitted_count ≤ (g kv).2.submitted_count)
    (k : Str) (e1 e2 : Nat) :
    submittedOf ⟨l, e1⟩ k ≤ submittedOf ⟨l.map g, e2⟩ k := by
  induction l with
  | nil => simp [submittedOf, dictGet?]
  | cons kv tl ih =>
    unfold submittedOf dictGet?
    by_cases hk : kv.1 = k
    · rw [List.map_cons, List.find?_cons_of_pos _ (by simpa using hk),
        List.find?_cons_of_pos _ (by simp [hfst kv, hk])]
      exact hmono kv
    · rw [List.map_cons, List.find?_cons_of_neg _ (by simpa using hk),
        List.find?_cons_of_neg _ (by simp [hfst kv, hk])]
      exact ih

/-- One `get_next_granule_ids` call with non-negative count preserves
well-formedness and never decreases any inventory's cursor. -/
theorem getNext_step (cat : Catalog) (t : InventoryTracking) (n : Int)
    (hwf : TrackingWF t) (hn : 0 ≤ n) :
    TrackingWF (get_next_granule_ids cat t n).1 ∧
    ∀ k, submittedOf t k ≤ submittedOf (get_next_granule_ids cat t n).1 k := by
  obtain ⟨hnd, hent⟩ := hwf
  cases hinv : t.get_next_inventory with
  | none =>
    have h1 : (get_next_granule_ids cat t n).1 = t := by
      unfold get_next_granule_ids
      rw [hinv]
    rw [h1]
    exact ⟨⟨hnd, hent⟩, fun k => le_refl _⟩
  | some inv =>
    obtain ⟨kv0, hkv0mem, hkv0val⟩ : ∃ kv, kv ∈ t.inventories ∧ kv.2 = inv := by
      unfold InventoryTracking.get_next_inventory at hinv
      obtain ⟨kv, hhead, hsnd⟩ := Option.map_eq_some'.mp hinv
      exact ⟨kv, (List.mem_filter.mp (List.mem_of_mem_head? hhead)).1, hsnd⟩
    have hid0 : kv0.1 = inv.identifier := by
      rw [← hkv0val]
      exact (hent kv0 hkv0mem).1
    have hb0 : 0 ≤ inv.submitted_count ∧ inv.submitted_count ≤ inv.total_count := by
      have hx := (hent kv0 hkv0mem).2
      rw [hkv0val] at hx
      exact hx
    set c : Int := min (inv.submitted_count + n) inv.total_count -
      inv.submitted_count with hc
    have hc0 : 0 ≤ c := by omega
    have h1 : (get_next_granule_ids cat t n).1 = t.increment_progress inv c := by
      unfold get_next_granule_ids
      rw [hinv]
    rw [h1]
    unfold InventoryTracking.increment_progress
    constructor
    · constructor
      · have hkeys : (t.inventories.map fun kv =>
            if kv.1 = inv.identifier then
              (kv.1, { kv.2 with submitted_count := kv.2.submitted_count + c })
            else kv).map Prod.fst = t.inventories.map Prod.fst := by
          rw [List.map_map]
          refine List.map_congr_left fun kv _ => ?_
          by_cases h : kv.1 = inv.identifier <;> simp [h]
        rw [hkeys]
        exact hnd
      · intro kv' hkv'
        obtain ⟨kv, hkvmem, rfl⟩ := List.mem_map.mp hkv'
        by_cases hk : kv.1 = inv.identifier
        · have hkveq : kv = kv0 :=
            List.inj_on_of_nodup_map hnd hkvmem hkv0mem (by rw [hk, hid0])
          have hval : kv.2 = inv := by rw [hkveq]; exact hkv0val
          simp only [if_pos hk]
          refine ⟨?_, ?_, ?_⟩
          · show kv.1 = kv.2.identifier
            exact (hent kv hkvmem).1
          · show (0 : Int) ≤ kv.2.submitted_count + c
            rw [hval]
            omega
          · show kv.2.submitted_count + c ≤ kv.2.total_count
            rw [hval]
            omega
        · simp only [if_neg hk]
          exact hent kv hkvmem
    · intro k
      refine submittedOf_map_le t.inventories _ ?_ ?_ k t.etag t.etag
      · intro kv
        by_cases h : kv.1 = inv.identifier <;> simp [h]
      · intro kv
        by_cases h : kv.1 = inv.identifier
        · simp only [if_pos h]
          show kv.2.submitted_count ≤ kv.2.submitted_count + c
          omega
        · simp only [if_neg h]
          exact le_refl _

/-- Any sequence of non-negative-count calls preserves well-formedness
and is pointwise non-decreasing. -/
theorem runCalls_wf_mono (cat : Catalog) (ns : List Int) :
    ∀ t : InventoryTracking, TrackingWF t → (∀ n ∈ ns, 0 ≤ n) →
      TrackingWF (runCalls cat t ns) ∧
      ∀ k, submittedOf t k ≤ submittedOf (runCalls cat t ns) k := by
  induction ns with
  | nil =>
    intro t hwf _
    exact ⟨hwf, fun k => le_refl _⟩
  | cons n rest ih =>
    intro t hwf hns
    have hstep := getNext_step cat t n hwf (hns n (List.mem_cons_self _ _))
    have hrest := ih (get_next_granule_ids cat t n).1 hstep.1
      (fun m hm => hns m (List.mem_cons_of_mem _ hm))
    exact ⟨hrest.1, fun k => le_trans (hstep.2 k) (hrest.2 k)⟩

/-- C7 (amended): for every sequence of `get_next_granule_ids` calls
with non-negative counts on a well-formed tracking and no interleaved
external writes, every inventory's `submitted_count` stays within
`0 ≤ submitted_count ≤ total_count` at every point of the sequence,
and is non-decreasing from any point of the sequence to its end. -/
theorem ledger_monotonicity
    (cat : Catalog) (t : InventoryTracking) (pre suf : List Int)
    (hwf : TrackingWF t) (hpre : ∀ n ∈ pre, 0 ≤ n) (hsuf : ∀ n ∈ suf, 0 ≤ n) :
    TrackingWF (runCalls cat t pre) ∧
    ∀ k, submittedOf (runCalls cat t pre) k ≤
      submittedOf (runCalls cat t (pre ++ suf)) k := by
  have h1 := runCalls_wf_mono cat pre t hwf hpre
  have h2 := runCalls_wf_mono cat suf (runCalls cat t pre) h1.1 hsuf
  refine ⟨h1.1, fun k => ?_⟩
  have happ : runCalls cat t (pre ++ suf) =
      runCalls cat (runCalls cat t pre) suf := by
    unfold runCalls
    rw [List.foldl_append]
  rw [happ]
  exact h2.2 k

/-- C7 witness: two batched calls of 2 on the three-row scenario. -/
theorem ledger_monotonicity_witness :
    TrackingWF (runCalls c3cat c3t0 [2]) ∧
    ∀ k, submittedOf (runCalls c3cat c3t0 [2]) k ≤
      submittedOf (runCalls c3cat c3t0 ([2] ++ [2])) k :=
  ledger_monotonicity c3cat c3t0 [2] [2] (by decide) (by decide) (by decide)

theorem digitToChar_ne_dot (k : Nat) : digitToChar k ≠ '.' := by
  unfold digitToChar
  split_ifs <;> decide

theorem digitToChar_bne_T (k : Nat) : (digitToChar k != 'T') = true := by
  unfold digitToChar
  split_ifs <;> decide

theorem pySplit_ne_nil (sep : Char) (l : Str) : pySplit sep l ≠ [] := by
  induction l with
  | nil => simp [pySplit]
  | cons c cs ih =>
    obtain ⟨r, rs, hsp⟩ : ∃ r rs, pySplit sep cs = r :: rs := by
      cases hq : pySplit sep cs with
      | nil => exact absurd hq ih
      | cons r rs => exact ⟨r, rs, rfl⟩
    show (match pySplit sep cs with
      | [] => [[]]
      | r :: rs => if c = sep then [] :: r :: rs else (c :: r) :: rs) ≠ []
    rw [hsp]
    split_ifs <;> simp

theorem pySplit_of_not_mem (sep : Char) (x : Str) (h : sep ∉ x) :
    pySplit sep x = [x] := by
  induction x with
  | nil => rfl
  | cons c cs ih =>
    show (match pySplit sep cs with
      | [] => [[]]
      | r :: rs => if c = sep then [] :: r :: rs else (c :: r) :: rs) = [c :: cs]
    rw [ih (List.not_mem_of_not_mem_cons h)]
    show (if c = sep then [] :: cs :: [] else (c :: cs) :: []) = [c :: cs]
    rw [if_neg (fun hc => (List.ne_of_not_mem_cons h) hc.symm)]

theorem pySplit_append (sep : Char) (x l : Str) (h : sep ∉ x) :
    pySplit sep (x ++ sep :: l) = x :: pySplit sep l := by
  induction x with
  | nil =>
    obtain ⟨r, rs, hsp⟩ : ∃ r rs, pySplit sep l = r :: rs := by
      cases hq : pySplit sep l with
      | nil => exact absurd hq (pySplit_ne_nil sep l)
      | cons r rs => exact ⟨r, rs, rfl⟩
    show (match pySplit sep l with
      | [] => [[]]
      | r :: rs => if sep = sep then [] :: r :: rs else (sep :: r) :: rs) =
        [] :: pySplit sep l
    rw [hsp]
    show (if sep = sep then [] :: r :: rs else (sep :: r) :: rs) = [] :: r :: rs
    rw [if_pos rfl]
  | cons c cs ih =>
    show (match pySplit sep (cs ++ sep :: l) with
      | [] => [[]]
      | r :: rs => if c = sep then [] :: r :: rs else (c :: r) :: rs) =
        (c :: cs) :: pySplit sep l
    rw [ih (List.not_mem_of_not_mem_cons h)]
    show (if c = sep then [] :: cs :: pySplit sep l else (c :: cs) :: pySplit sep l) =
      (c :: cs) :: pySplit sep l
    rw [if_neg (fun hc => (List.ne_of_not_mem_cons h) hc.symm)]

theorem pySplit_pyJoin (sep : Char) (parts : List Str) (hne : parts ≠ [])
    (h : ∀ p ∈ parts, sep ∉ p) : pySplit sep (pyJoin sep parts) = parts := by
  induction parts with
  | nil => exact absurd rfl hne
  | cons x xs ih =>
    cases xs with
    | nil => exact pySplit_of_not_mem sep x (h x (List.mem_cons_self _ _))
    | cons y ys =>
      show pySplit sep (x ++ sep :: pyJoin sep (y :: ys)) = x :: y :: ys
      rw [pySplit_append sep x _ (h x (List.mem_cons_self _ _))]
      rw [ih (by simp) (fun p hp => h p (List.mem_cons_of_mem _ hp))]

theorem fixedWidthTs_no_dot (d : PyDatetime) : '.' ∉ fixedWidthTs d := by
  have hd : ∀ k, ('.' = digitToChar k) = False :=
    fun k => eq_false fun he => digitToChar_ne_dot k he.symm
  have hT : ('.' = 'T') = False := by decide
  simp [fixedWidthTs, pad4, pad3, pad2, hd, hT]

/-- For a four-digit year, the platform's unpadded `%Y` and the
fixed-width layout coincide. -/
theorem natToStr_eq_pad4 (n : Nat) (h1 : 1000 ≤ n) (h2 : n ≤ 9999) :
    natToStr n = pad4 n := by
  have dd1 : n / 10 / 10 = n / 100 := by
    rw [Nat.div_div_eq_div_mul]
  have dd2 : n / 100 / 10 = n / 1000 := by
    rw [Nat.div_div_eq_div_mul]
  have hz : n / 1000 / 10 = 0 := by omega
  have hm : n / 1000 % 10 = n / 1000 := Nat.mod_eq_of_lt (by omega)
  unfold natToStr
  rw [if_neg (by omega), natDigitsRev_eq_digits n n le_rfl]
  rw [Nat.digits_def' (by norm_num : (1 : Nat) < 10) (by omega : 0 < n)]
  rw [Nat.digits_def' (by norm_num : (1 : Nat) < 10) (by omega : 0 < n / 10)]
  rw [dd1, Nat.digits_def' (by norm_num : (1 : Nat) < 10) (by omega : 0 < n / 100)]
  rw [dd2, Nat.digits_def' (by norm_num : (1 : Nat) < 10) (by omega : 0 < n / 1000)]
  rw [hz]
  simp [pad4, hm]

/-- On years at least 1000, the real formatter produces exactly the
fixed-width timestamp. -/
theorem formatTs_eq_fixedWidthTs (d : PyDatetime) (h1 : 1000 ≤ d.year)
    (h2 : d.year ≤ 9999) : formatTs d = fixedWidthTs d := by
  unfold formatTs fixedWidthTs
  rw [natToStr_eq_pad4 d.year h1 h2]

theorem parseTs_fixedWidthTs (d : PyDatetime) (h : d.inRange) :
    parseTs (fixedWidthTs d) = some d := by
  obtain ⟨hy1, hy9999, hd1, hdmax, hh, hm, hs⟩ := h
  have hdoy366 : d.doy ≤ 366 := by
    have hdy : daysInYear d.year ≤ 366 := by
      unfold daysInYear
      split_ifs <;> omega
    omega
  have l1 : (0 : Nat) < 10 := by norm_num
  have hcy1 : charToDigit? (digitToChar (d.year / 1000 % 10)) =
      some (d.year / 1000 % 10) := charToDigit?_digitToChar _ (Nat.mod_lt _ l1)
  have hcy2 : charToDigit? (digitToChar (d.year / 100 % 10)) =
      some (d.year / 100 % 10) := charToDigit?_digitToChar _ (Nat.mod_lt _ l1)
  have hcy3 : charToDigit? (digitToChar (d.year / 10 % 10)) =
      some (d.year / 10 % 10) := charToDigit?_digitToChar _ (Nat.mod_lt _ l1)
  have hcy4 : charToDigit? (digitToChar (d.year % 10)) =
      some (d.year % 10) := charToDigit?_digitToChar _ (Nat.mod_lt _ l1)
  have hcj1 : charToDigit? (digitToChar (d.doy / 100 % 10)) =
      some (d.doy / 100 % 10) := charToDigit?_digitToChar _ (Nat.mod_lt _ l1)
  have hcj2 : charToDigit? (digitToChar (d.doy / 10 % 10)) =
      some (d.doy / 10 % 10) := charToDigit?_digitToChar _ (Nat.mod_lt _ l1)
  have hcj3 : charToDigit? (digitToChar (d.doy % 10)) =
      some (d.doy % 10) := charToDigit?_digitToChar _ (Nat.mod_lt _ l1)
  have hch1 : charToDigit? (digitToChar (d.hour / 10 % 10)) =
      some (d.hour / 10 % 10) := charToDigit?_digitToChar _ (Nat.mod_lt _ l1)
  have hch2 : charToDigit? (digitToChar (d.hour % 10)) =
      some (d.hour % 10) := charToDigit?_digitToChar _ (Nat.mod_lt _ l1)
  have hcm1 : charToDigit? (digitToChar (d.minute / 10 % 10)) =
      some (d.minute / 10 % 10) := charToDigit?_digitToChar _ (Nat.mod_lt _ l1)
  have hcm2 : charToDigit? (digitToChar (d.minute % 10)) =
      some (d.minute % 10) := charToDigit?_digitToChar _ (Nat.mod_lt _ l1)
  have hcs1 : charToDigit? (digitToChar (d.second / 10 % 10)) =
      some (d.second / 10 % 10) := charToDigit?_digitToChar _ (Nat.mod_lt _ l1)
  have hcs2 : charToDigit? (digitToChar (d.second % 10)) =
      some (d.second % 10) := charToDigit?_digitToChar _ (Nat.mod_lt _ l1)
  have dd1 : d.year / 10 / 10 = d.year / 100 := by
    rw [Nat.div_div_eq_div_mul]
  have dd2 : d.year / 100 / 10 = d.year / 1000 := by
    rw [Nat.div_div_eq_div_mul]
  have dd3 : d.doy / 10 / 10 = d.doy / 100 := by
    rw [Nat.div_div_eq_div_mul]
  have hyear : ((d.year / 1000 % 10 * 10 + d.year / 100 % 10) * 10 +
      d.year / 10 % 10) * 10 + d.year % 10 = d.year := by omega
  have hdoy : (d.doy / 100 % 10 * 10 + d.doy / 10 % 10) * 10 + d.doy % 10 =
      d.doy := by omega
  have hhour : d.hour / 10 % 10 * 10 + d.hour % 10 = d.hour := by omega
  have hminute : d.minute / 10 % 10 * 10 + d.minute % 10 = d.minute := by omega
  have hsecond : d.second / 10 % 10 * 10 + d.second % 10 = d.second := by omega
  simp only [fixedWidthTs, pad4, pad3, pad2, List.cons_append, List.nil_append]
  simp [parseTs, parseHMS, hmsSplit, digitsVal?, hcy1, hcy2, hcy3, hcy4, hcj1, hcj2,
    hcj3, hch1, hch2, hcm1, hcm2, hcs1, hcs2, digitToChar_bne_T, hyear, hdoy, hhour,
    hminute, hsecond, hy1, hd1, hdmax, hh, hm, hs]

/-- C8 (counterexample): the valid fixed-format identifier
`HLS.S30.T01GBH.0999226T214921.v2.0` (year field `0999`) does not
round-trip: the platform's `%Y` prints year 999 unpadded, so
formatting the parsed identifier yields
`HLS.S30.T01GBH.999226T214921.v2.0` instead of the input. -/
theorem granule_id_roundtrip_fails_leading_zero_year :
    validGranuleIdStr "HLS.S30.T01GBH.0999226T214921.v2.0".data ∧
    ¬ ((GranuleId.from_str "HLS.S30.T01GBH.0999226T214921.v2.0".data).map
          GranuleId.toStr =
        some "HLS.S30.T01GBH.0999226T214921.v2.0".data) :=
  ⟨⟨"HLS".data, "S30".data, "T01GBH".data, ⟨999, 226, 21, 49, 21⟩,
      "v2".data, "0".data, by decide, by decide, by decide, by decide, by decide,
      by decide, rfl⟩,
    by decide⟩

/-- C8 (amended): formatting the parsed identifier reproduces every
valid granule-identifier string whose year field has no leading zero
(year at least 1000) exactly. -/
theorem granule_id_roundtrip (s : Str) (h : validGranuleIdStrY4 s) :
    (GranuleId.from_str s).map GranuleId.toStr = some s := by
  obtain ⟨p, pl, t, d, vM, vm, hp, hpl, ht, hvM, hvm, hd, hy4, rfl⟩ := h
  have hsplit : pySplit '.' (pyJoin '.' [p, pl, t, fixedWidthTs d, vM, vm]) =
      [p, pl, t, fixedWidthTs d, vM, vm] := by
    refine pySplit_pyJoin '.' _ (by simp) ?_
    intro q hq
    simp only [List.mem_cons, List.not_mem_nil, or_false] at hq
    rcases hq with rfl | rfl | rfl | rfl | rfl | rfl
    exacts [hp, hpl, ht, fixedWidthTs_no_dot d, hvM, hvm]
  unfold GranuleId.from_str
  rw [hsplit]
  show Option.map GranuleId.toStr ((parseTs (fixedWidthTs d)).map fun dt =>
      { product := p, platform := pl, tile := t, begin_datetime := dt,
        version := vM ++ '.' :: vm }) =
    some (pyJoin '.' [p, pl, t, fixedWidthTs d, vM, vm])
  rw [parseTs_fixedWidthTs d hd]
  show some (GranuleId.toStr
      { product := p, platform := pl, tile := t, begin_datetime := d,
        version := vM ++ '.' :: vm }) =
    some (pyJoin '.' [p, pl, t, fixedWidthTs d, vM, vm])
  unfold GranuleId.toStr
  rw [formatTs_eq_fixedWidthTs d hy4 hd.2.1]
  rfl

/-- C8 witness: the round trip evaluated on a concrete identifier with
a four-digit year. -/
theorem granule_id_roundtrip_witness :
    (GranuleId.from_str "HLS.S30.T01GBH.2022226T214921.v2.0".data).map
        GranuleId.toStr =
      some "HLS.S30.T01GBH.2022226T214921.v2.0".data :=
  granule_id_roundtrip _
    ⟨"HLS".data, "S30".data, "T01GBH".data, ⟨2022, 226, 21, 49, 21⟩,
      "v2".data, "0".data, by decide, by decide, by decide, by decide, by decide,
      by decide, by decide, rfl⟩

end HLSVI
